import Mathlib

/-!
Shallow embedding of the background-removal service (src/main.py) and proofs
about its processing pipeline: session cache, image pre/post-processing,
result validation, content-type gating, and the retry/fallback control flow
of the two POST handlers.

External library calls (PIL resize/convert/blur, rembg inference) are modelled
as parameters: the embedding tracks exactly the data the service code itself
inspects (dimensions, color mode, channel lists), and theorems that need a
property of the external call (for example, that resize produces an image of
the requested dimensions) take that property as an explicit hypothesis.
Floating-point arithmetic in the source (the resize ratio, the 0.95
transparency threshold) is modelled as exact rational/Nat arithmetic.
-/

set_option autoImplicit false

namespace BgRemoval

/-- PIL color modes that the service distinguishes. The code only ever tests
for membership in the set of modes RGB and RGBA and for the mode P, so a small
representative enumeration of the other PIL modes suffices. -/
inductive PMode where
  | RGB
  | RGBA
  | P
  | L
  | LA
  | CMYK
  deriving DecidableEq, Repr

/-- In-memory decoded bitmap, as the service observes it: dimensions, color
mode, whether the metadata dictionary carries a transparency entry, and the
four channel planes as flat pixel lists (the alpha plane is meaningful only in
RGBA mode, matching what the code reads). -/
structure PImage where
  width : Nat
  height : Nat
  mode : PMode
  infoTransparency : Bool
  r : List Nat
  g : List Nat
  b : List Nat
  a : List Nat
  deriving DecidableEq, Repr

/-- PIL Image.convert as the service uses it: re-encodes the pixel data into
the target mode. Dimensions are preserved; the pixel re-encoding itself is
never inspected by the service code, so it is kept as the identity on the
channel planes. -/
def pilConvert (image : PImage) (m : PMode) : PImage :=
  { image with mode := m }

/-- The color-mode normalization step at the top of preprocess_image
(src/main.py lines 75-80): any mode other than RGB/RGBA is converted to RGB,
except a paletted image whose info carries a transparency entry, which is
converted to RGBA. -/
def normalizeMode (image : PImage) : PImage :=
  if image.mode ≠ PMode.RGB ∧ image.mode ≠ PMode.RGBA then
    if image.mode = PMode.P ∧ image.infoTransparency then
      pilConvert image PMode.RGBA
    else
      pilConvert image PMode.RGB
  else
    image

/-- preprocess_image (src/main.py lines 64-89). The parameter resize stands
for PIL Image.resize with the LANCZOS filter; the requested target size is the
pair handed to it. The downsize arithmetic int(dim * (max_size / max(size)))
is modelled as exact truncated division dim * max_size / max(size). Returns
the processed image together with the original size recorded on entry. -/
def preprocess_image (resize : PImage → Nat × Nat → PImage)
    (image : PImage) (max_size : Nat := 4000) : PImage × (Nat × Nat) :=
  let original_size := (image.width, image.height)
  let image := normalizeMode image
  let image :=
    if max image.width image.height > max_size then
      resize image
        (image.width * max_size / max image.width image.height,
         image.height * max_size / max image.width image.height)
    else
      image
  (image, original_size)

/-- The edge-refinement step of postprocess_image (src/main.py lines 103-112):
when refine is set and the image is RGBA, the image is split into its four
planes, a Gaussian blur of radius 0.5 is applied to the alpha plane alone, and
the planes are merged back. The parameter blur stands for
ImageFilter.GaussianBlur applied to one plane, taking the radius (an exact
rational, 1/2 in the call) and the plane. -/
def refineStep (blur : ℚ → List Nat → List Nat) (refine : Bool)
    (image : PImage) : PImage :=
  if refine then
    if image.mode = PMode.RGBA then
      { image with a := blur (1/2) image.a }
    else
      image
  else
    image

/-- postprocess_image (src/main.py lines 91-113): resize back to the original
size when the current size differs, then apply the refinement step. -/
def postprocess_image (resize : PImage → Nat × Nat → PImage)
    (blur : ℚ → List Nat → List Nat) (image : PImage)
    (original_size : Nat × Nat) (refine : Bool := true) : PImage :=
  let image :=
    if (image.width, image.height) ≠ original_size then
      resize image original_size
    else
      image
  refineStep blur refine image

/-- The body of validate_result (src/main.py lines 120-140), before the
fail-open exception guard: the processed image must be RGBA, its alpha plane
must take at least two distinct values, and the fraction of pixels with alpha
below 10 must not strictly exceed 95 percent (the float comparison
count / size > 0.95 is modelled exactly as 20 * count > 19 * size). -/
def validate_result_body (original processed : PImage) : Bool :=
  if processed.mode ≠ PMode.RGBA then
    false
  else
    let alpha := processed.a
    if alpha.dedup.length < 2 then
      false
    else if 20 * (alpha.filter (fun v => v < 10)).length > 19 * alpha.length then
      false
    else
      true

/-- The fail-open exception guard wrapped around the validator body
(src/main.py lines 120 and 141-143): the checks are run, and any internal
error is swallowed and reported as valid. The parameter body generalizes over
possible internal failures of the checker. -/
def validate_result_guard (body : PImage → PImage → Except String Bool)
    (original processed : PImage) : Bool :=
  match body original processed with
  | Except.ok b => b
  | Except.error _ => true

/-- validate_result (src/main.py lines 115-143): the guard applied to the
(in this model total) checker body. -/
def validate_result (original processed : PImage) : Bool :=
  validate_result_guard (fun o p => Except.ok (validate_result_body o p))
    original processed

/-- Lookup in the session cache, modelling Python dict membership and
subscript for the string-keyed MODEL_SESSIONS dictionary. -/
def cacheLookup {σ : Type} (cache : List (String × σ)) (k : String) : Option σ :=
  match cache with
  | [] => none
  | (k₁, v) :: rest => if k₁ = k then some v else cacheLookup rest k

/-- get_model_session (src/main.py lines 36-62), in explicit-state form. The
parameter loader stands for rembg new_session (together with the 60-second
alarm: a timeout is one more way for it to fail). The result carries the
returned session handle, the cache after the call, and the list of model names
for which the loader was actually invoked during this call. A loader failure
propagates and caches nothing. -/
def get_model_session {σ : Type} (loader : String → Except String σ)
    (cache : List (String × σ)) (model_name : String) :
    Except String (σ × List (String × σ) × List String) :=
  match cacheLookup cache model_name with
  | some s => Except.ok (s, cache, [])
  | none =>
    match loader model_name with
    | Except.ok s => Except.ok (s, cache ++ [(model_name, s)], [model_name])
    | Except.error e => Except.error e

/-- Client-facing error: HTTP status code plus detail string, modelling
fastapi HTTPException. -/
structure HTTPError where
  status : Nat
  detail : String
  deriving DecidableEq, Repr

/-- The allowed upload content types, shared verbatim by both POST handlers
(src/main.py lines 221 and 389). -/
def allowed_types : List String :=
  ["image/png", "image/jpeg", "image/jpg", "image/webp"]

/-- The content-type gate of the JSON handler remove_background (src/main.py
lines 221-226): none means the upload passes the check, some error is the
HTTPException raised. -/
def remove_background_typegate (content_type : String) : Option HTTPError :=
  if content_type ∈ allowed_types then
    none
  else
    some { status := 400,
           detail := "Invalid file type. Allowed types: "
             ++ String.intercalate ", " allowed_types }

/-- The content-type gate of the binary handler remove_background_binary
(src/main.py lines 389-394), textually identical to the JSON one. -/
def remove_background_binary_typegate (content_type : String) : Option HTTPError :=
  if content_type ∈ allowed_types then
    none
  else
    some { status := 400,
           detail := "Invalid file type. Allowed types: "
             ++ String.intercalate ", " allowed_types }

/-- One pass of the retry loop shared by both POST handlers (src/main.py lines
263-307 and 429-464), parametric in the image type. attempts i is the outcome
of primary attempt i (session acquisition plus the rembg remove call with the
explicit session: ok is a returned image, error a raised exception message);
validate is validate_result applied to the attempt result; fallback is the
outcome of the rembg remove call without an explicit session. The recursion
counts the remaining loop iterations, so the running index is
maxRetries - remaining; the carried state is (output_image, last_error). The
Except error is an HTTPException detail raised inside the loop; the List α
component records every image that was passed to validate, in order. -/
def removalLoopAux {α : Type} (attempts : Nat → Except String α)
    (validate : α → Bool) (fallback : Except String α) (maxRetries : Nat) :
    Nat → Option α → Option String → List α →
    Except String (Option α × Option String) × List α
  | 0, out, lastErr, vlog => (Except.ok (out, lastErr), vlog)
  | remaining + 1, out, lastErr, vlog =>
    match attempts (maxRetries - (remaining + 1)) with
    | Except.ok img =>
      if validate img then
        (Except.ok (some img, lastErr), vlog ++ [img])
      else
        removalLoopAux attempts validate fallback maxRetries remaining
          (some img) (some "Result validation failed") (vlog ++ [img])
    | Except.error e =>
      if remaining = 0 then
        match fallback with
        | Except.ok fimg => (Except.ok (some fimg, some e), vlog)
        | Except.error fe =>
          (Except.error ("Background removal failed: " ++ fe), vlog)
      else
        removalLoopAux attempts validate fallback maxRetries remaining
          out (some e) vlog

/-- The retry/fallback block of the JSON handler remove_background
(src/main.py lines 259-316): run the two-iteration loop starting from
output_image = None and last_error = None, raise 500 if output_image is still
None afterwards, otherwise post-process the final image and succeed. The
result is paired with the log of images handed to validate. -/
def removalRun {α : Type} (attempts : Nat → Except String α)
    (validate : α → Bool) (fallback : Except String α) (post : α → α) :
    Except String α × List α :=
  match removalLoopAux attempts validate fallback 2 2 none none [] with
  | (Except.error d, vlog) => (Except.error d, vlog)
  | (Except.ok (none, lastErr), vlog) =>
    (Except.error ("Background removal failed after 2 attempts: "
      ++ lastErr.getD "None"), vlog)
  | (Except.ok (some img, _), vlog) => (Except.ok (post img), vlog)

/-- The retry/fallback block of the binary handler remove_background_binary
(src/main.py lines 426-473): identical control flow, except that the loop
there keeps no last_error and the post-loop None check raises a fixed
message. -/
def removalRunBinary {α : Type} (attempts : Nat → Except String α)
    (validate : α → Bool) (fallback : Except String α) (post : α → α) :
    Except String α × List α :=
  match removalLoopAux attempts validate fallback 2 2 none none [] with
  | (Except.error d, vlog) => (Except.error d, vlog)
  | (Except.ok (none, _), vlog) =>
    (Except.error "Background removal failed after multiple attempts", vlog)
  | (Except.ok (some img, _), vlog) => (Except.ok (post img), vlog)

/-- The inference stage of the JSON handler with its real collaborators
plugged in: the loop validates each primary result with validate_result
against the preprocessed input and post-processes the final image with
postprocess_image at the recorded original size with refine set
(src/main.py lines 259-316). -/
def remove_background_pipeline (resize : PImage → Nat × Nat → PImage)
    (blur : ℚ → List Nat → List Nat) (attempts : Nat → Except String PImage)
    (fallback : Except String PImage) (imgPre : PImage)
    (original_size : Nat × Nat) : Except String PImage × List PImage :=
  removalRun attempts (fun out => validate_result imgPre out) fallback
    (fun out => postprocess_image resize blur out original_size true)

/-- The inference stage of the binary handler with its real collaborators
plugged in (src/main.py lines 426-473). -/
def remove_background_binary_pipeline (resize : PImage → Nat × Nat → PImage)
    (blur : ℚ → List Nat → List Nat) (attempts : Nat → Except String PImage)
    (fallback : Except String PImage) (imgPre : PImage)
    (original_size : Nat × Nat) : Except String PImage × List PImage :=
  removalRunBinary attempts (fun out => validate_result imgPre out) fallback
    (fun out => postprocess_image resize blur out original_size true)

/-! Helper lemmas. -/

@[simp]
lemma normalizeMode_width (image : PImage) :
    (normalizeMode image).width = image.width := by
  unfold normalizeMode pilConvert
  split
  · split <;> rfl
  · rfl

@[simp]
lemma normalizeMode_height (image : PImage) :
    (normalizeMode image).height = image.height := by
  unfold normalizeMode pilConvert
  split
  · split <;> rfl
  · rfl

@[simp]
lemma refineStep_width (blur : ℚ → List Nat → List Nat) (refine : Bool)
    (image : PImage) : (refineStep blur refine image).width = image.width := by
  unfold refineStep
  split
  · split <;> rfl
  · rfl

@[simp]
lemma refineStep_height (blur : ℚ → List Nat → List Nat) (refine : Bool)
    (image : PImage) : (refineStep blur refine image).height = image.height := by
  unfold refineStep
  split
  · split <;> rfl
  · rfl

lemma preprocess_image_snd (resize : PImage → Nat × Nat → PImage)
    (image : PImage) (max_size : Nat) :
    (preprocess_image resize image max_size).2 = (image.width, image.height) := rfl

lemma postprocess_image_size (resize : PImage → Nat × Nat → PImage)
    (blur : ℚ → List Nat → List Nat)
    (hresize : ∀ i s, (resize i s).width = s.1 ∧ (resize i s).height = s.2)
    (image : PImage) (original_size : Nat × Nat) (refine : Bool) :
    (postprocess_image resize blur image original_size refine).width = original_size.1 ∧
    (postprocess_image resize blur image original_size refine).height = original_size.2 := by
  unfold postprocess_image
  dsimp only
  split
  · exact ⟨by simp [(hresize image original_size).1],
      by simp [(hresize image original_size).2]⟩
  · rename_i hEq
    rw [not_ne_iff] at hEq
    exact ⟨by simp [← hEq], by simp [← hEq]⟩

/-! Sample data used by the closed witness theorems. -/

/-- Resampling modelled as dimension bookkeeping only: a concrete instance of
the resize collaborator, satisfying the dimension contract definitionally. -/
def idResize : PImage → Nat × Nat → PImage :=
  fun i s => { i with width := s.1, height := s.2 }

/-- A concrete instance of the per-plane blur collaborator. -/
def idBlur : ℚ → List Nat → List Nat := fun _ plane => plane

/-- The oversized 4500 by 3000 RGB input of the spec scenario. -/
def img4500 : PImage :=
  { width := 4500, height := 3000, mode := PMode.RGB, infoTransparency := false,
    r := [], g := [], b := [], a := [] }

/-- A small concrete RGBA image with a bimodal alpha plane. -/
def imgRGBA : PImage :=
  { width := 2, height := 2, mode := PMode.RGBA, infoTransparency := false,
    r := [10, 20, 30, 40], g := [50, 60, 70, 80], b := [90, 100, 110, 120],
    a := [0, 255, 255, 255] }

/-- A small concrete paletted image carrying a transparency entry. -/
def imgP : PImage :=
  { width := 2, height := 1, mode := PMode.P, infoTransparency := true,
    r := [3, 4], g := [], b := [], a := [] }

/-- A small concrete grayscale image (no alpha channel). -/
def imgL : PImage :=
  { width := 2, height := 1, mode := PMode.L, infoTransparency := false,
    r := [7, 8], g := [], b := [], a := [] }

/-! Claim theorems. -/

/-- C3: preprocess_image (default max dimension 4000) followed by
postprocess_image at the original size it returned yields an image whose
width and height equal the input image's exactly, for any resize collaborator
that produces images of the requested size, even when preprocess performed an
intermediate downsample. -/
theorem C3_roundtrip_dimensions (resize : PImage → Nat × Nat → PImage)
    (blur : ℚ → List Nat → List Nat)
    (hresize : ∀ i s, (resize i s).width = s.1 ∧ (resize i s).height = s.2)
    (image : PImage) (refine : Bool) :
    (postprocess_image resize blur (preprocess_image resize image 4000).1
      (preprocess_image resize image 4000).2 refine).width = image.width ∧
    (postprocess_image resize blur (preprocess_image resize image 4000).1
      (preprocess_image resize image 4000).2 refine).height = image.height := by
  have h := postprocess_image_size resize blur hresize
    (preprocess_image resize image 4000).1
    (preprocess_image resize image 4000).2 refine
  rw [preprocess_image_snd] at h
  exact h

/-- Witness for C3 at the 4500 by 3000 input of the spec scenario: the
round trip recovers 4500 by 3000. -/
theorem C3_roundtrip_dimensions_witness :
    (postprocess_image idResize idBlur (preprocess_image idResize img4500 4000).1
      (preprocess_image idResize img4500 4000).2 true).width = 4500 ∧
    (postprocess_image idResize idBlur (preprocess_image idResize img4500 4000).1
      (preprocess_image idResize img4500 4000).2 true).height = 3000 :=
  C3_roundtrip_dimensions idResize idBlur (fun _ _ => ⟨rfl, rfl⟩) img4500 true

/-- C7: postprocess_image with refine set is the refinement step applied after
the resize-back step; on an RGBA image the refinement step replaces the alpha
plane by a Gaussian blur of radius 1/2 of it, leaving the red, green, blue
planes, the dimensions and the mode untouched; an image of any other mode
passes through the refinement step unmodified. -/
theorem C7_refine_frame (resize : PImage → Nat × Nat → PImage)
    (blur : ℚ → List Nat → List Nat) (image : PImage)
    (original_size : Nat × Nat) :
    (postprocess_image resize blur image original_size true =
      refineStep blur true
        (if (image.width, image.height) ≠ original_size then
          resize image original_size else image)) ∧
    (image.mode = PMode.RGBA →
      refineStep blur true image = { image with a := blur (1/2) image.a } ∧
      (refineStep blur true image).r = image.r ∧
      (refineStep blur true image).g = image.g ∧
      (refineStep blur true image).b = image.b ∧
      (refineStep blur true image).a = blur (1/2) image.a) ∧
    (image.mode ≠ PMode.RGBA → refineStep blur true image = image) := by
  refine ⟨rfl, fun hmode => ?_, fun hmode => ?_⟩
  · have h : refineStep blur true image = { image with a := blur (1/2) image.a } := by
      unfold refineStep
      rw [if_pos rfl, if_pos hmode]
    rw [h]
    exact ⟨rfl, rfl, rfl, rfl, rfl⟩
  · unfold refineStep
    rw [if_pos rfl, if_neg hmode]

/-- Witness for C7 at a concrete RGBA image and a concrete grayscale image. -/
theorem C7_refine_frame_witness :
    (refineStep idBlur true imgRGBA).r = imgRGBA.r ∧
    (refineStep idBlur true imgRGBA).a = idBlur (1/2) imgRGBA.a ∧
    refineStep idBlur true imgL = imgL :=
  ⟨((C7_refine_frame idResize idBlur imgRGBA (2, 2)).2.1 rfl).2.1,
   ((C7_refine_frame idResize idBlur imgRGBA (2, 2)).2.1 rfl).2.2.2.2,
   (C7_refine_frame idResize idBlur imgL (2, 1)).2.2 (by decide)⟩

/-- C8: preprocess_image keeps the mode of an RGB or RGBA input; it converts a
paletted input carrying a transparency entry to RGBA; and it converts every
other input to RGB — for any resize collaborator that preserves the mode. -/
theorem C8_color_mode_normalization (resize : PImage → Nat × Nat → PImage)
    (hresize : ∀ i s, (resize i s).mode = i.mode)
    (image : PImage) (max_size : Nat) :
    ((image.mode = PMode.RGB ∨ image.mode = PMode.RGBA) →
      (preprocess_image resize image max_size).1.mode = image.mode) ∧
    ((image.mode ≠ PMode.RGB ∧ image.mode ≠ PMode.RGBA) →
      (image.mode = PMode.P ∧ image.infoTransparency = true →
        (preprocess_image resize image max_size).1.mode = PMode.RGBA) ∧
      (¬(image.mode = PMode.P ∧ image.infoTransparency = true) →
        (preprocess_image resize image max_size).1.mode = PMode.RGB)) := by
  have hpre : ∀ img : PImage, (preprocess_image resize img max_size).1.mode =
      (normalizeMode img).mode := by
    intro img
    unfold preprocess_image
    dsimp only
    split
    · rw [hresize]
    · rfl
  refine ⟨fun hrgb => ?_, fun hother => ⟨fun hP => ?_, fun hnP => ?_⟩⟩
  · rw [hpre]
    unfold normalizeMode
    rw [if_neg]
    rcases hrgb with h | h <;> simp [h]
  · rw [hpre]
    unfold normalizeMode pilConvert
    rw [if_pos hother, if_pos hP]
  · rw [hpre]
    unfold normalizeMode pilConvert
    rw [if_pos hother, if_neg hnP]

/-- Witness for C8: a paletted image with transparency becomes RGBA, a
grayscale image becomes RGB, an RGBA image keeps its mode. -/
theorem C8_color_mode_normalization_witness :
    (preprocess_image idResize imgP 4000).1.mode = PMode.RGBA ∧
    (preprocess_image idResize imgL 4000).1.mode = PMode.RGB ∧
    (preprocess_image idResize imgRGBA 4000).1.mode = PMode.RGBA :=
  ⟨((C8_color_mode_normalization idResize (fun _ _ => rfl) imgP 4000).2
      (by decide)).1 (by decide),
   ((C8_color_mode_normalization idResize (fun _ _ => rfl) imgL 4000).2
      (by decide)).2 (by decide),
   (C8_color_mode_normalization idResize (fun _ _ => rfl) imgRGBA 4000).1
      (Or.inr rfl)⟩

/-- C10: preprocess_image never enlarges. When the larger input dimension is
at most max_size the dimensions pass through unchanged; otherwise each output
dimension is the truncated value dim * max_size / max(width, height), which is
at most the corresponding input dimension, and the larger output dimension is
at most max_size — for any resize collaborator that produces images of the
requested size. -/
theorem C10_preprocess_never_enlarges (resize : PImage → Nat × Nat → PImage)
    (hresize : ∀ i s, (resize i s).width = s.1 ∧ (resize i s).height = s.2)
    (image : PImage) (max_size : Nat) :
    (max image.width image.height ≤ max_size →
      (preprocess_image resize image max_size).1.width = image.width ∧
      (preprocess_image resize image max_size).1.height = image.height) ∧
    (max_size < max image.width image.height →
      (preprocess_image resize image max_size).1.width =
        image.width * max_size / max image.width image.height ∧
      (preprocess_image resize image max_size).1.height =
        image.height * max_size / max image.width image.height ∧
      (preprocess_image resize image max_size).1.width ≤ image.width ∧
      (preprocess_image resize image max_size).1.height ≤ image.height ∧
      max (preprocess_image resize image max_size).1.width
        (preprocess_image resize image max_size).1.height ≤ max_size) := by
  have hM : ∀ img : PImage, max img.width img.height > max_size →
      0 < max img.width img.height := fun _ h => Nat.lt_of_le_of_lt (Nat.zero_le _) h
  constructor
  · intro hle
    unfold preprocess_image
    dsimp only
    rw [if_neg (by simp; omega)]
    exact ⟨normalizeMode_width image, normalizeMode_height image⟩
  · intro hgt
    have hgt' : max (normalizeMode image).width (normalizeMode image).height > max_size := by
      simpa using hgt
    have hMpos : 0 < max image.width image.height :=
      Nat.lt_of_le_of_lt (Nat.zero_le _) hgt
    have hwid : (preprocess_image resize image max_size).1.width =
        image.width * max_size / max image.width image.height := by
      unfold preprocess_image
      dsimp only
      rw [if_pos hgt', (hresize _ _).1]
      simp
    have hhei : (preprocess_image resize image max_size).1.height =
        image.height * max_size / max image.width image.height := by
      unfold preprocess_image
      dsimp only
      rw [if_pos hgt', (hresize _ _).2]
      simp
    have hshrink : ∀ d : Nat, d * max_size / max image.width image.height ≤ d := by
      intro d
      calc d * max_size / max image.width image.height
          ≤ d * max image.width image.height / max image.width image.height :=
            Nat.div_le_div_right (Nat.mul_le_mul_left d (Nat.le_of_lt hgt))
        _ = d := Nat.mul_div_cancel d hMpos
    have hbound : ∀ d : Nat, d ≤ max image.width image.height →
        d * max_size / max image.width image.height ≤ max_size := by
      intro d hd
      calc d * max_size / max image.width image.height
          ≤ max image.width image.height * max_size / max image.width image.height :=
            Nat.div_le_div_right (Nat.mul_le_mul_right max_size hd)
        _ = max_size := Nat.mul_div_cancel_left max_size hMpos
    refine ⟨hwid, hhei, ?_, ?_, ?_⟩
    · rw [hwid]; exact hshrink image.width
    · rw [hhei]; exact hshrink image.height
    · rw [hwid, hhei]
      exact max_le (hbound image.width (le_max_left _ _))
        (hbound image.height (le_max_right _ _))

/-- Witness for C10 at the 4500 by 3000 input: the downsampled size is
4000 by 2666, no larger than the input and capped at 4000. -/
theorem C10_preprocess_never_enlarges_witness :
    (preprocess_image idResize img4500 4000).1.width = 4000 ∧
    (preprocess_image idResize img4500 4000).1.height = 2666 :=
  ⟨((C10_preprocess_never_enlarges idResize (fun _ _ => ⟨rfl, rfl⟩) img4500 4000).2
      (by decide)).1.trans (by decide),
   ((C10_preprocess_never_enlarges idResize (fun _ _ => ⟨rfl, rfl⟩) img4500 4000).2
      (by decide)).2.1.trans (by decide)⟩

/-- C4: the validator decision rule. validate_result is false exactly when the
result lacks an alpha channel (mode other than RGBA), or its alpha plane takes
fewer than two distinct values, or the fraction of pixels with alpha below 10
strictly exceeds 95 percent; it is true otherwise. The boolean equation
captures all three ordered checks at once. -/
theorem C4_validator_decision_rule (original processed : PImage) :
    validate_result original processed =
      (decide (processed.mode = PMode.RGBA) &&
       decide (2 ≤ processed.a.dedup.length) &&
       decide (20 * (processed.a.filter (fun v => v < 10)).length ≤
         19 * processed.a.length)) := by
  unfold validate_result validate_result_guard validate_result_body
  dsimp only
  by_cases h1 : processed.mode = PMode.RGBA
  · rw [if_neg (by simp [h1])]
    by_cases h2 : processed.a.dedup.length < 2
    · rw [if_pos h2]
      simp [h1]
      omega
    · rw [if_neg h2]
      by_cases h3 : 20 * (processed.a.filter (fun v => v < 10)).length >
          19 * processed.a.length
      · rw [if_pos h3]
        simp [h1]
        omega
      · rw [if_neg h3]
        simp [h1]
        omega
  · rw [if_pos h1]
    simp [h1]

/-- C5: the fail-open guard of validate_result. Whenever the checker body
fails internally with any error, the guard swallows the error and reports the
result as valid, so the validator never propagates a failure to its caller. -/
theorem C5_validator_fail_open (body : PImage → PImage → Except String Bool)
    (original processed : PImage) (e : String)
    (h : body original processed = Except.error e) :
    validate_result_guard body original processed = true := by
  unfold validate_result_guard
  rw [h]

/-- Witness for C5: a checker body that always fails still yields valid. -/
theorem C5_validator_fail_open_witness :
    validate_result_guard (fun _ _ => Except.error "numpy failure")
      imgRGBA imgRGBA = true :=
  C5_validator_fail_open (fun _ _ => Except.error "numpy failure")
    imgRGBA imgRGBA "numpy failure" rfl

/-- C9: the content-type gate of both POST handlers. Every upload whose
content type is among image/png, image/jpeg, image/jpg, image/webp passes the
check on both endpoints; every other content type receives a 400 error on both
endpoints whose detail message names the four allowed types. -/
theorem C9_content_type_gate (content_type : String) :
    (content_type ∈ allowed_types →
      remove_background_typegate content_type = none ∧
      remove_background_binary_typegate content_type = none) ∧
    (content_type ∉ allowed_types →
      remove_background_typegate content_type =
        some { status := 400,
               detail := "Invalid file type. Allowed types: image/png, image/jpeg, image/jpg, image/webp" } ∧
      remove_background_binary_typegate content_type =
        some { status := 400,
               detail := "Invalid file type. Allowed types: image/png, image/jpeg, image/jpg, image/webp" }) := by
  constructor
  · intro hmem
    unfold remove_background_typegate remove_background_binary_typegate
    rw [if_pos hmem]
    exact ⟨rfl, rfl⟩
  · intro hmem
    unfold remove_background_typegate remove_background_binary_typegate
    rw [if_neg hmem]
    exact ⟨rfl, rfl⟩

/-- Witness for C9: image/png passes on both endpoints; text/plain is
rejected with the 400 error naming the allowed types. -/
theorem C9_content_type_gate_witness :
    remove_background_typegate "image/png" = none ∧
    remove_background_binary_typegate "text/plain" =
      some { status := 400,
             detail := "Invalid file type. Allowed types: image/png, image/jpeg, image/jpg, image/webp" } :=
  ⟨((C9_content_type_gate "image/png").1 (by decide)).1,
   ((C9_content_type_gate "text/plain").2 (by decide)).2⟩

/-! Cache lookup helper lemmas for the session-cache claim. -/

lemma cacheLookup_append_of_some {σ : Type} (cache cache₂ : List (String × σ))
    (k : String) (v : σ) (h : cacheLookup cache k = some v) :
    cacheLookup (cache ++ cache₂) k = some v := by
  induction cache with
  | nil => simp [cacheLookup] at h
  | cons hd tl ih =>
    obtain ⟨k₁, v₁⟩ := hd
    rw [List.cons_append]
    unfold cacheLookup at h ⊢
    by_cases hk : k₁ = k
    · rwa [if_pos hk] at h ⊢
    · rw [if_neg hk] at h ⊢
      exact ih h

lemma cacheLookup_append_self {σ : Type} (cache : List (String × σ))
    (k : String) (v : σ) (h : cacheLookup cache k = none) :
    cacheLookup (cache ++ [(k, v)]) k = some v := by
  induction cache with
  | nil => simp [cacheLookup]
  | cons hd tl ih =>
    obtain ⟨k₁, v₁⟩ := hd
    rw [List.cons_append]
    unfold cacheLookup at h ⊢
    by_cases hk : k₁ = k
    · rw [if_pos hk] at h
      exact absurd h (by simp)
    · rw [if_neg hk] at h ⊢
      exact ih h

lemma cacheLookup_eq_none_iff {σ : Type} (cache : List (String × σ))
    (k : String) : cacheLookup cache k = none ↔ k ∉ cache.map Prod.fst := by
  induction cache with
  | nil => simp [cacheLookup]
  | cons hd tl ih =>
    obtain ⟨k₁, v₁⟩ := hd
    unfold cacheLookup
    by_cases hk : k₁ = k
    · subst hk
      simp
    · rw [if_neg hk, ih]
      simp only [List.map_cons, List.mem_cons]
      constructor
      · intro h hmem
        rcases hmem with h1 | h2
        · exact hk h1.symm
        · exact h h2
      · intro h hmem
        exact h (Or.inr hmem)

/-- C6: the session-cache invariant of get_model_session. A cache hit returns
the cached handle with no loader invocation and an unchanged cache; a miss
followed by a successful load performs exactly one loader invocation and
stores the handle under the exact string key, a subsequent call with the same
identifier returns that same handle with no further load, every pre-existing
entry survives the update, and key uniqueness is preserved. -/
theorem C6_session_cache_invariant {σ : Type}
    (loader : String → Except String σ) (cache : List (String × σ))
    (model_name : String) :
    (∀ s, cacheLookup cache model_name = some s →
      get_model_session loader cache model_name = Except.ok (s, cache, [])) ∧
    (∀ s, cacheLookup cache model_name = none →
      loader model_name = Except.ok s →
      get_model_session loader cache model_name =
        Except.ok (s, cache ++ [(model_name, s)], [model_name]) ∧
      get_model_session loader (cache ++ [(model_name, s)]) model_name =
        Except.ok (s, cache ++ [(model_name, s)], []) ∧
      (∀ k v, cacheLookup cache k = some v →
        cacheLookup (cache ++ [(model_name, s)]) k = some v) ∧
      ((cache.map Prod.fst).Nodup →
        ((cache ++ [(model_name, s)]).map Prod.fst).Nodup)) := by
  constructor
  · intro s hs
    unfold get_model_session
    rw [hs]
  · intro s hnone hload
    refine ⟨?_, ?_, ?_, ?_⟩
    · unfold get_model_session
      rw [hnone, hload]
    · unfold get_model_session
      rw [cacheLookup_append_self cache model_name s hnone]
    · intro k v hk
      exact cacheLookup_append_of_some cache [(model_name, s)] k v hk
    · intro hnodup
      rw [List.map_append, List.nodup_append]
      refine ⟨hnodup, by simp, ?_⟩
      intro x hx hx'
      simp at hx'
      rw [hx'] at hx
      exact (cacheLookup_eq_none_iff cache model_name).mp hnone hx

/-- An example loader used by the session-cache witness: it can load exactly
the model u2net, as session handle 7. -/
def demoLoader : String → Except String Nat :=
  fun n => if n = "u2net" then Except.ok 7 else Except.error "load failed"

/-- Witness for C6: on an empty cache, the first call for u2net loads once and
caches handle 7; the second call returns the same handle without loading. -/
theorem C6_session_cache_invariant_witness :
    get_model_session demoLoader [] "u2net" =
      Except.ok (7, [("u2net", 7)], ["u2net"]) ∧
    get_model_session demoLoader [("u2net", 7)] "u2net" =
      Except.ok (7, [("u2net", 7)], []) := by
  have h := (C6_session_cache_invariant demoLoader [] "u2net").2 7 rfl
    (by simp [demoLoader])
  exact ⟨h.1, h.2.1⟩

/-! Behavior of the retry/fallback loop, case by case. Each lemma covers both
handler variants, which share the loop; they differ only in the message of the
post-loop None check, a state the two-iteration loop never reaches. -/

lemma run_first_attempt_valid {α : Type} (a : Nat → Except String α)
    (v : α → Bool) (f : Except String α) (post : α → α) (x : α)
    (h0 : a 0 = Except.ok x) (hv : v x = true) :
    removalRun a v f post = (Except.ok (post x), [x]) ∧
    removalRunBinary a v f post = (Except.ok (post x), [x]) := by
  constructor <;> simp [removalRun, removalRunBinary, removalLoopAux, h0, hv]

lemma run_second_attempt_returns {α : Type} (a : Nat → Except String α)
    (v : α → Bool) (f : Except String α) (post : α → α) (x y : α)
    (h0 : a 0 = Except.ok x) (hv : v x = false) (h1 : a 1 = Except.ok y) :
    removalRun a v f post = (Except.ok (post y), [x, y]) ∧
    removalRunBinary a v f post = (Except.ok (post y), [x, y]) := by
  constructor <;> simp [removalRun, removalRunBinary, removalLoopAux, h0, hv, h1]

lemma run_invalid_then_exn_fallback_ok {α : Type} (a : Nat → Except String α)
    (v : α → Bool) (post : α → α) (x : α) (e : String) (fi : α)
    (h0 : a 0 = Except.ok x) (hv : v x = false) (h1 : a 1 = Except.error e) :
    removalRun a v (Except.ok fi) post = (Except.ok (post fi), [x]) ∧
    removalRunBinary a v (Except.ok fi) post = (Except.ok (post fi), [x]) := by
  constructor <;> simp [removalRun, removalRunBinary, removalLoopAux, h0, hv, h1]

lemma run_invalid_then_exn_fallback_exn {α : Type} (a : Nat → Except String α)
    (v : α → Bool) (post : α → α) (x : α) (e fe : String)
    (h0 : a 0 = Except.ok x) (hv : v x = false) (h1 : a 1 = Except.error e) :
    removalRun a v (Except.error fe) post =
      (Except.error ("Background removal failed: " ++ fe), [x]) ∧
    removalRunBinary a v (Except.error fe) post =
      (Except.error ("Background removal failed: " ++ fe), [x]) := by
  constructor <;> simp [removalRun, removalRunBinary, removalLoopAux, h0, hv, h1]

lemma run_exn_then_returns {α : Type} (a : Nat → Except String α)
    (v : α → Bool) (f : Except String α) (post : α → α) (e0 : String) (y : α)
    (h0 : a 0 = Except.error e0) (h1 : a 1 = Except.ok y) :
    removalRun a v f post = (Except.ok (post y), [y]) ∧
    removalRunBinary a v f post = (Except.ok (post y), [y]) := by
  constructor <;>
    cases hvy : v y <;>
      simp [removalRun, removalRunBinary, removalLoopAux, h0, h1, hvy]

lemma run_both_exn_fallback_ok {α : Type} (a : Nat → Except String α)
    (v : α → Bool) (post : α → α) (e0 e1 : String) (fi : α)
    (h0 : a 0 = Except.error e0) (h1 : a 1 = Except.error e1) :
    removalRun a v (Except.ok fi) post = (Except.ok (post fi), []) ∧
    removalRunBinary a v (Except.ok fi) post = (Except.ok (post fi), []) := by
  constructor <;> simp [removalRun, removalRunBinary, removalLoopAux, h0, h1]

lemma run_both_exn_fallback_exn {α : Type} (a : Nat → Except String α)
    (v : α → Bool) (post : α → α) (e0 e1 fe : String)
    (h0 : a 0 = Except.error e0) (h1 : a 1 = Except.error e1) :
    removalRun a v (Except.error fe) post =
      (Except.error ("Background removal failed: " ++ fe), []) ∧
    removalRunBinary a v (Except.error fe) post =
      (Except.error ("Background removal failed: " ++ fe), []) := by
  constructor <;> simp [removalRun, removalRunBinary, removalLoopAux, h0, h1]

/-- Counterexample to C1 as stated. Concrete request in which both primary
attempts return images (1 and then 2) that fail validation (the validator is
constantly false), and the fallback would fail with the error message
fallback boom. The claim predicts that on exhausting the retries the fallback
is invoked and, since it fails, the request fails with HTTP 500 carrying that
error; the code instead never invokes the fallback on this path and returns
the last invalid image as a success. -/
theorem C1_counterexample :
    removalRun (fun i => Except.ok (i + 1)) (fun _ => false)
      (Except.error "fallback boom") (fun x => x) = (Except.ok 2, [1, 2]) ∧
    (fun _ : Nat => false) 1 = false ∧ (fun _ : Nat => false) 2 = false :=
  ⟨rfl, rfl, rfl⟩

/-- C1 amended: on both POST endpoints the inference call is attempted up to 2
times; an attempt whose result fails validation is treated as a failure and
retried; the single fallback invocation omitting the explicit session happens
exactly when the final attempt raises an exception — not when the retries are
exhausted by validation failures, in which case the last (invalid) result is
post-processed and returned as a success; and when the fallback is invoked and
also fails, the request fails (HTTP 500) with the fallback error message. The
seven clauses cover every possible request outcome for both handlers. -/
theorem C1_amended_retry_fallback_policy {α : Type} (a : Nat → Except String α)
    (v : α → Bool) (f : Except String α) (post : α → α) :
    (∀ x, a 0 = Except.ok x → v x = true →
      removalRun a v f post = (Except.ok (post x), [x]) ∧
      removalRunBinary a v f post = (Except.ok (post x), [x])) ∧
    (∀ x y, a 0 = Except.ok x → v x = false → a 1 = Except.ok y →
      removalRun a v f post = (Except.ok (post y), [x, y]) ∧
      removalRunBinary a v f post = (Except.ok (post y), [x, y])) ∧
    (∀ x e fi, a 0 = Except.ok x → v x = false → a 1 = Except.error e →
      f = Except.ok fi →
      removalRun a v f post = (Except.ok (post fi), [x]) ∧
      removalRunBinary a v f post = (Except.ok (post fi), [x])) ∧
    (∀ x e fe, a 0 = Except.ok x → v x = false → a 1 = Except.error e →
      f = Except.error fe →
      removalRun a v f post =
        (Except.error ("Background removal failed: " ++ fe), [x]) ∧
      removalRunBinary a v f post =
        (Except.error ("Background removal failed: " ++ fe), [x])) ∧
    (∀ e0 y, a 0 = Except.error e0 → a 1 = Except.ok y →
      removalRun a v f post = (Except.ok (post y), [y]) ∧
      removalRunBinary a v f post = (Except.ok (post y), [y])) ∧
    (∀ e0 e1 fi, a 0 = Except.error e0 → a 1 = Except.error e1 →
      f = Except.ok fi →
      removalRun a v f post = (Except.ok (post fi), []) ∧
      removalRunBinary a v f post = (Except.ok (post fi), [])) ∧
    (∀ e0 e1 fe, a 0 = Except.error e0 → a 1 = Except.error e1 →
      f = Except.error fe →
      removalRun a v f post =
        (Except.error ("Background removal failed: " ++ fe), []) ∧
      removalRunBinary a v f post =
        (Except.error ("Background removal failed: " ++ fe), [])) := by
  refine ⟨?_, ?_, ?_, ?_, ?_, ?_, ?_⟩
  · exact fun x h0 hv => run_first_attempt_valid a v f post x h0 hv
  · exact fun x y h0 hv h1 => run_second_attempt_returns a v f post x y h0 hv h1
  · intro x e fi h0 hv h1 hf
    subst hf
    exact run_invalid_then_exn_fallback_ok a v post x e fi h0 hv h1
  · intro x e fe h0 hv h1 hf
    subst hf
    exact run_invalid_then_exn_fallback_exn a v post x e fe h0 hv h1
  · exact fun e0 y h0 h1 => run_exn_then_returns a v f post e0 y h0 h1
  · intro e0 e1 fi h0 h1 hf
    subst hf
    exact run_both_exn_fallback_ok a v post e0 e1 fi h0 h1
  · intro e0 e1 fe h0 h1 hf
    subst hf
    exact run_both_exn_fallback_exn a v post e0 e1 fe h0 h1

/-- Witness for the amended C1 at a concrete request in which both primary
attempts raise and the fallback also fails: the run fails carrying the
fallback error message. -/
theorem C1_amended_retry_fallback_policy_witness :
    removalRun (fun _ => (Except.error "inference crashed" : Except String Nat))
      (fun _ => true) (Except.error "fallback boom") id =
      (Except.error ("Background removal failed: " ++ "fallback boom"), []) :=
  ((C1_amended_retry_fallback_policy
      (fun _ => (Except.error "inference crashed" : Except String Nat))
      (fun _ => true) (Except.error "fallback boom") id).2.2.2.2.2.2
    "inference crashed" "inference crashed" "fallback boom" rfl rfl rfl).1

/-- C2: on both POST endpoints, when the primary attempts are exhausted by
exceptions and the sessionless fallback invocation returns an image, that
image is post-processed and returned as the success response, and the log of
images handed to validate_result is empty — validate_result is never applied
to the fallback image. -/
theorem C2_fallback_skips_validation (resize : PImage → Nat × Nat → PImage)
    (blur : ℚ → List Nat → List Nat) (attempts : Nat → Except String PImage)
    (fallback : Except String PImage) (imgPre : PImage)
    (original_size : Nat × Nat) (e0 e1 : String) (fi : PImage)
    (h0 : attempts 0 = Except.error e0) (h1 : attempts 1 = Except.error e1)
    (hf : fallback = Except.ok fi) :
    remove_background_pipeline resize blur attempts fallback imgPre
      original_size =
      (Except.ok (postprocess_image resize blur fi original_size true), []) ∧
    remove_background_binary_pipeline resize blur attempts fallback imgPre
      original_size =
      (Except.ok (postprocess_image resize blur fi original_size true), []) := by
  subst hf
  unfold remove_background_pipeline remove_background_binary_pipeline
  exact run_both_exn_fallback_ok attempts
    (fun out => validate_result imgPre out) _ e0 e1 fi h0 h1

/-- Witness for C2 at a concrete request whose two attempts both raise and
whose fallback returns a concrete RGBA image. -/
theorem C2_fallback_skips_validation_witness :
    remove_background_pipeline idResize idBlur
      (fun _ => Except.error "inference crashed") (Except.ok imgRGBA)
      imgRGBA (2, 2) =
      (Except.ok (postprocess_image idResize idBlur imgRGBA (2, 2) true), []) ∧
    remove_background_binary_pipeline idResize idBlur
      (fun _ => Except.error "inference crashed") (Except.ok imgRGBA)
      imgRGBA (2, 2) =
      (Except.ok (postprocess_image idResize idBlur imgRGBA (2, 2) true), []) :=
  C2_fallback_skips_validation idResize idBlur
    (fun _ => Except.error "inference crashed") (Except.ok imgRGBA)
    imgRGBA (2, 2) "inference crashed" "inference crashed" imgRGBA rfl rfl rfl

end BgRemoval
